import Mathlib

set_option linter.unusedVariables false

/-!
Verification development for the StudyMind study-management backend.

This file gives a shallow embedding of the progress / streak / notification
aggregation logic (src/services.py and the inline helper copies in src/app.py)
and of the AI result-handling control flow (src/ai_service.py), and proves the
behavioural properties stated in the specification against it.

Modelling conventions:
- The database state is restricted to the slice belonging to a single user
  (every query in the source filters by `user_id`); the user id is still
  threaded through as a parameter where the source stores it in created rows.
- Calendar dates are integers (day numbers); `yesterday = today - 1` mirrors
  `today - timedelta(days=1)`.
- SQLAlchemy integer columns are `Int` (route handlers receive arbitrary JSON
  integers, including negative ones); boolean columns are `Bool`.
- `DailyProgress` rows live in an association list keyed by date;
  `query.filter_by(date=d).first()` is first-match lookup and in-place ORM
  mutation is replace-first-match (or append, for `db.session.add`).
- Timestamps (`completed_at`, `end_time`) are abstract instants (`Int`).
-/

/-- Mutable per-user statistics of the `users` table that the aggregation
logic touches: `streak` and `total_study_time` (identity and credential
columns are never read by the functions modelled here). -/
structure UserRec where
  streak : Int
  total_study_time : Int
deriving DecidableEq, Repr

/-- The `user_settings` columns read by the progress logic (`daily_goal`;
the remaining preference columns are never consulted by it). -/
structure UserSettings where
  daily_goal : Int
deriving DecidableEq, Repr

/-- One `daily_progress` row (the `user_id`/`date` key is the position in the
association list below).  Column defaults are 0 / False. -/
structure DailyProgress where
  study_time : Int
  materials_processed : Int
  tasks_completed : Int
  pages_read : Int
  goal_met : Bool
deriving DecidableEq, Repr

/-- A freshly constructed `DailyProgress(user_id=..., date=...)` row: all
counters at their column default 0 and `goal_met` at its default False. -/
def DailyProgress.init : DailyProgress :=
  { study_time := 0, materials_processed := 0, tasks_completed := 0
    pages_read := 0, goal_met := false }

/-- One `notifications` row (creation timestamp omitted: nothing reads it). -/
structure Notification where
  user_id : Nat
  type : String
  title : String
  text : String
  icon : String
  read : Bool
deriving DecidableEq, Repr

/-- One `study_sessions` row (the fields written by the end-session
handlers). -/
structure StudySession where
  duration : Int
  pages_covered : Int
  end_time : Option Int
deriving DecidableEq, Repr

/-- One `tasks` row (the fields touched by `toggle_task`; named `TaskRow`
because `Task` is taken by the Lean core library). -/
structure TaskRow where
  completed : Bool
  completed_at : Option Int
deriving DecidableEq, Repr

/-- The database slice owned by one user: the user row, the optional
`user_settings` row, the `daily_progress` rows keyed by date, and the
notification rows. -/
structure Db where
  user : UserRec
  settings : Option UserSettings
  progress : List (Int × DailyProgress)
  notifications : List Notification
deriving DecidableEq, Repr

/-- The query `DailyProgress.query.filter_by(user_id=..., date=d).first()`:
first row whose date key equals `d`. -/
def getRow (d : Int) : List (Int × DailyProgress) → Option DailyProgress
  | [] => none
  | (d', p) :: rest => if d' = d then some p else getRow d rest

/-- Writing back a mutated (or freshly added) row for date `d`: replace the
first row keyed `d`, or append a new one when none exists
(`db.session.add(progress)`). -/
def setRow (d : Int) (p : DailyProgress) : List (Int × DailyProgress) → List (Int × DailyProgress)
  | [] => [(d, p)]
  | (d', p') :: rest => if d' = d then (d, p) :: rest else (d', p') :: setRow d p rest

/-- The `daily_progress` row for date `d`, materialised: the stored row, or a
default-initialised one when absent. -/
def rowAt (d : Int) (db : Db) : DailyProgress :=
  (getRow d db.progress).getD DailyProgress.init

/-- The `goal_met` flag of the (possibly absent) row for date `d`. -/
def goalMetAt (d : Int) (db : Db) : Bool :=
  (rowAt d db).goal_met

/-- The query `DailyProgress.query.filter_by(user_id=..., date=yesterday, goal_met=True).first()`
is non-None: yesterday's row exists and has its goal met. -/
def yesterdayMet (today : Int) (db : Db) : Bool :=
  match getRow (today - 1) db.progress with
  | some p => p.goal_met
  | none => false

/-- Embeds `NotificationService.create` (src/services.py:437): append a new
notification row, unread by default. -/
def NotificationService.create (uid : Nat) (type title text icon : String)
    (ns : List Notification) : List Notification :=
  ns ++ [{ user_id := uid, type := type, title := title, text := text
           icon := icon, read := false }]

/-- Embeds `NotificationService.create_achievement` (src/services.py:451): an
achievement notification with the fixed trophy icon. -/
def NotificationService.create_achievement (uid : Nat) (title text : String)
    (ns : List Notification) : List Notification :=
  NotificationService.create uid "achievement" title text "ri-trophy-line" ns

/-- Embeds `NotificationService.mark_all_read` (src/services.py:491):
`filter_by(user_id=uid, read=False).update(read=True)` sets the read flag on
every unread notification owned by `uid` and touches nothing else. -/
def NotificationService.mark_all_read (uid : Nat)
    (ns : List Notification) : List Notification :=
  ns.map (fun n => if n.user_id = uid ∧ n.read = false then { n with read := true } else n)

/-- Embeds `ProgressService.update_streak` (src/services.py:382): read yesterday's
row filtered on `goal_met=True`; increment the streak when it exists,
otherwise reset the streak to 1; then emit one achievement notification when
the new streak is in the milestone list [7, 14, 30, 60, 100, 365]. -/
def ProgressService.update_streak (uid : Nat) (today : Int) (db : Db) : Db :=
  let streak' := if yesterdayMet today db then db.user.streak + 1 else 1
  let db' := { db with user := { db.user with streak := streak' } }
  if streak' ∈ ([7, 14, 30, 60, 100, 365] : List Int) then
    let ns' := NotificationService.create_achievement uid
      (toString streak' ++ "-Day Streak!")
      ("Incredible! You have studied for " ++ toString streak' ++ " days in a row!")
      db'.notifications
    { db' with notifications := ns' }
  else db'

/-- Embeds `ProgressService.update_daily` (src/services.py:352): fetch or create the
row for today, add each delta to its counter, then check the daily goal: when
a settings row exists and the accumulated study time has reached
`daily_goal`, and `goal_met` was previously false, set `goal_met = True` and
invoke `ProgressService.update_streak` (edge-triggered). -/
def ProgressService.update_daily (uid : Nat) (today : Int)
    (study_time materials_processed tasks_completed pages_read : Int)
    (db : Db) : Db :=
  let p0 := (getRow today db.progress).getD DailyProgress.init
  let p1 : DailyProgress :=
    { study_time := p0.study_time + study_time
      materials_processed := p0.materials_processed + materials_processed
      tasks_completed := p0.tasks_completed + tasks_completed
      pages_read := p0.pages_read + pages_read
      goal_met := p0.goal_met }
  match db.settings with
  | some s =>
      if p1.study_time ≥ s.daily_goal then
        if p1.goal_met = false then
          ProgressService.update_streak uid today
            { db with progress := setRow today { p1 with goal_met := true } db.progress }
        else { db with progress := setRow today p1 db.progress }
      else { db with progress := setRow today p1 db.progress }
  | none => { db with progress := setRow today p1 db.progress }

/-- Embeds `SessionService.end_session` (src/services.py:230), database effect:
stamp the session, add the duration to `user.total_study_time`, then call
`ProgressService.update_daily` with `study_time=duration,
pages_read=pages_covered`.  (No separate streak call: the service-layer
`update_daily` triggers the streak itself, edge-triggered.) -/
def SessionService.end_session_db (uid : Nat) (today : Int)
    (duration pages_covered : Int) (db : Db) : Db :=
  ProgressService.update_daily uid today duration 0 0 pages_covered
    { db with user :=
        { db.user with total_study_time := db.user.total_study_time + duration } }

/-- Embeds `SessionService.end_session` (src/services.py:230) including the mutation
of the session row itself (`end_time`, `duration`, `pages_covered`). -/
def SessionService.end_session (uid : Nat) (now today : Int)
    (duration pages_covered : Int) (s : StudySession) (db : Db) : StudySession × Db :=
  ({ s with end_time := some now, duration := duration, pages_covered := pages_covered },
   SessionService.end_session_db uid today duration pages_covered db)

/-- The inline helper `update_daily_progress` (src/app.py:686): identical
additive accumulation, but the goal check just sets `goal_met = True`
whenever `study_time >= daily_goal` (re-assigned on every qualifying call,
and no streak invocation here at all). -/
def app.update_daily_progress (uid : Nat) (today : Int)
    (study_time materials_processed tasks_completed pages_read : Int)
    (db : Db) : Db :=
  let p0 := (getRow today db.progress).getD DailyProgress.init
  let p1 : DailyProgress :=
    { study_time := p0.study_time + study_time
      materials_processed := p0.materials_processed + materials_processed
      tasks_completed := p0.tasks_completed + tasks_completed
      pages_read := p0.pages_read + pages_read
      goal_met := p0.goal_met }
  let p2 :=
    match db.settings with
    | some s => if p1.study_time ≥ s.daily_goal then { p1 with goal_met := true } else p1
    | none => p1
  { db with progress := setRow today p2 db.progress }

/-- The inline helper `update_streak` (src/app.py:713): gated on today's row
existing with `goal_met` true; then the same increment-or-reset rule, but the
milestone list is [7, 14, 30, 60, 100] (365 is absent here) and the
notification uses the fire icon. -/
def app.update_streak (uid : Nat) (today : Int) (db : Db) : Db :=
  match getRow today db.progress with
  | some tp =>
      if tp.goal_met then
        let streak' := if yesterdayMet today db then db.user.streak + 1 else 1
        let db' := { db with user := { db.user with streak := streak' } }
        if streak' ∈ ([7, 14, 30, 60, 100] : List Int) then
          let ns' := NotificationService.create uid "achievement"
            (toString streak' ++ "-Day Streak!")
            ("Amazing! You have studied for " ++ toString streak' ++ " days in a row!")
            "ri-fire-line"
            db'.notifications
          { db' with notifications := ns' }
        else db'
      else db
  | none => db

/-- The route handler `end_session` (src/app.py:550), database effect: add
the duration to `user.total_study_time`, call `update_daily_progress`, then
unconditionally call `update_streak` (it runs on every session end, not only
at the goal edge). -/
def app.end_session_db (uid : Nat) (today : Int)
    (duration pages_covered : Int) (db : Db) : Db :=
  app.update_streak uid today
    (app.update_daily_progress uid today duration 0 0 pages_covered
      { db with user :=
          { db.user with total_study_time := db.user.total_study_time + duration } })

/-- The route handler `end_session` (src/app.py:550) including the mutation
of the session row (`end_time`, `duration`, `pages_covered` from the request
body, default 0). -/
def app.end_session (uid : Nat) (now today : Int)
    (duration pages_covered : Int) (s : StudySession) (db : Db) : StudySession × Db :=
  ({ s with end_time := some now, duration := duration, pages_covered := pages_covered },
   app.end_session_db uid today duration pages_covered db)

/-- The route handler `toggle_task` (src/app.py:497): flip the completed
flag; stamp `completed_at = now` exactly when the new state is completed
(cleared otherwise); and call `update_daily_progress` with
`tasks_completed=1` only on the transition to completed. -/
def app.toggle_task (uid : Nat) (now today : Int) (t : TaskRow) (db : Db) : TaskRow × Db :=
  let t' : TaskRow :=
    { completed := !t.completed
      completed_at := if !t.completed then some now else none }
  if t'.completed then (t', app.update_daily_progress uid today 0 0 1 0 db)
  else (t', db)

/-- One invocation of any of the progress-touching operations of the
repository, with the arguments it receives (date parameters stand for the
`datetime.utcnow().date()` read at call time).  The task-toggle handler's
entire database effect is `update_daily_progress` with a lone
`tasks_completed=1` delta, so it is covered by `appDaily`; the
notification operations never touch progress rows or the user counters. -/
inductive ProgOp where
  | svcDaily (today study_time materials_processed tasks_completed pages_read : Int)
  | appDaily (today study_time materials_processed tasks_completed pages_read : Int)
  | svcStreak (today : Int)
  | appStreak (today : Int)
  | svcSession (today duration pages_covered : Int)
  | appSession (today duration pages_covered : Int)
deriving DecidableEq, Repr

/-- Interpret one operation as a database transition. -/
def applyOp (uid : Nat) : ProgOp → Db → Db
  | .svcDaily t st mp tc pr => ProgressService.update_daily uid t st mp tc pr
  | .appDaily t st mp tc pr => app.update_daily_progress uid t st mp tc pr
  | .svcStreak t => ProgressService.update_streak uid t
  | .appStreak t => app.update_streak uid t
  | .svcSession t du pg => SessionService.end_session_db uid t du pg
  | .appSession t du pg => app.end_session_db uid t du pg

/-- Run a sequence of operations left to right. -/
def applyOps (uid : Nat) (ops : List ProgOp) (db : Db) : Db :=
  ops.foldl (fun s op => applyOp uid op s) db

/-- The trajectory of the `goal_met` flag of date `d` along a run: the value
before the first operation followed by the value after each operation. -/
def goalTrace (uid : Nat) (d : Int) (db : Db) : List ProgOp → List Bool
  | [] => [goalMetAt d db]
  | op :: rest => goalMetAt d db :: goalTrace uid d (applyOp uid op db) rest

/-- Number of false-to-true transitions between adjacent entries of a
Boolean trajectory. -/
def countFlips : List Bool → Nat
  | [] => 0
  | [_] => 0
  | a :: b :: rest => (if a = false ∧ b = true then 1 else 0) + countFlips (b :: rest)

/-- One call of a daily-progress update function on a fixed (user, date),
with the four deltas it carries: either the service-layer
`ProgressService.update_daily` or the app-layer `update_daily_progress`. -/
inductive DailyCall where
  | svc (study_time materials_processed tasks_completed pages_read : Int)
  | app (study_time materials_processed tasks_completed pages_read : Int)
deriving DecidableEq, Repr

/-- Interpret one daily-progress call. -/
def applyDailyCall (uid : Nat) (today : Int) : DailyCall → Db → Db
  | .svc st mp tc pr => ProgressService.update_daily uid today st mp tc pr
  | .app st mp tc pr => app.update_daily_progress uid today st mp tc pr

/-- Run a sequence of daily-progress calls left to right. -/
def applyDailyCalls (uid : Nat) (today : Int) (cs : List DailyCall) (db : Db) : Db :=
  cs.foldl (fun s c => applyDailyCall uid today c s) db

/-- The `study_time` delta supplied by a daily-progress call. -/
def DailyCall.st : DailyCall → Int
  | .svc v _ _ _ => v
  | .app v _ _ _ => v

/-- The `materials_processed` delta supplied by a daily-progress call. -/
def DailyCall.mp : DailyCall → Int
  | .svc _ v _ _ => v
  | .app _ v _ _ => v

/-- The `tasks_completed` delta supplied by a daily-progress call. -/
def DailyCall.tc : DailyCall → Int
  | .svc _ _ v _ => v
  | .app _ _ v _ => v

/-- The `pages_read` delta supplied by a daily-progress call. -/
def DailyCall.pr : DailyCall → Int
  | .svc _ _ _ v => v
  | .app _ _ _ v => v

/-- Sum of the `study_time` deltas of a call sequence. -/
def sumSt : List DailyCall → Int
  | [] => 0
  | c :: cs => c.st + sumSt cs

/-- Sum of the `materials_processed` deltas of a call sequence. -/
def sumMp : List DailyCall → Int
  | [] => 0
  | c :: cs => c.mp + sumMp cs

/-- Sum of the `tasks_completed` deltas of a call sequence. -/
def sumTc : List DailyCall → Int
  | [] => 0
  | c :: cs => c.tc + sumTc cs

/-- Sum of the `pages_read` deltas of a call sequence. -/
def sumPr : List DailyCall → Int
  | [] => 0
  | c :: cs => c.pr + sumPr cs

/-- An operation whose supplied deltas are all non-negative (the streak
transitions carry no deltas at all). -/
def NonnegOp : ProgOp → Prop
  | .svcDaily _ st mp tc pr => 0 ≤ st ∧ 0 ≤ mp ∧ 0 ≤ tc ∧ 0 ≤ pr
  | .appDaily _ st mp tc pr => 0 ≤ st ∧ 0 ≤ mp ∧ 0 ≤ tc ∧ 0 ≤ pr
  | .svcStreak _ => True
  | .appStreak _ => True
  | .svcSession _ du pg => 0 ≤ du ∧ 0 ≤ pg
  | .appSession _ du pg => 0 ≤ du ∧ 0 ≤ pg

/-- Pointwise ordering of database states on the quantities the spec calls
monotone: the cumulative `total_study_time` of the user and the four
counters of every daily row. -/
def MonoLe (db db' : Db) : Prop :=
  db.user.total_study_time ≤ db'.user.total_study_time ∧
  ∀ d : Int,
    (rowAt d db).study_time ≤ (rowAt d db').study_time ∧
    (rowAt d db).materials_processed ≤ (rowAt d db').materials_processed ∧
    (rowAt d db).tasks_completed ≤ (rowAt d db').tasks_completed ∧
    (rowAt d db).pages_read ≤ (rowAt d db').pages_read

/-- Result shape of the AI-service functions: the Python dicts
`success=True, payload` and `success=False, error msg` (src/ai_service.py). -/
inductive AIResult (α : Type) where
  | ok (payload : α)
  | err (msg : String)
deriving DecidableEq, Repr

/-- The opening-brace character, written by code point to keep it out of
string and character literals. -/
def lbrace : Char := Char.ofNat 123

/-- The closing-brace character, written by code point. -/
def rbrace : Char := Char.ofNat 125

/-- The longest suffix-trimmed prefix of `l` ending at the last occurrence
of `cl` (meaningful when `cl` occurs in `l`): everything after the last
`cl` is dropped. -/
def upToLast (cl : Char) (l : List Char) : List Char :=
  (l.reverse.dropWhile (fun c => c ≠ cl)).reverse

/-- The match of the greedy regular expression used by the source
(`re.search` with pattern open-char, any characters, close-char, as in
src/ai_service.py:328 and :363): the span starting at the leftmost
occurrence of `op` that still has a `cl` somewhere after it, and ending at
the last occurrence of `cl` in the whole text; `none` when no such pair
exists. -/
def extractSpan (op cl : Char) : List Char → Option (List Char)
  | [] => none
  | c :: rest =>
      if c = op ∧ cl ∈ rest then some (c :: upToLast cl rest)
      else extractSpan op cl rest

/-- Embeds `generate_flashcards` (src/ai_service.py:306), as a function of the
provider outcome and of the behaviour of the JSON decoder.
`resp` is the outcome of `TEXT_MODEL.generate_content` (error value = the
exception message); `parse` is `json.loads` (error value = the decoder
exception message).  The whole body runs inside try/except, so every
exception becomes the structured failure result; the function is total and
never propagates an exception. -/
def generate_flashcards {α : Type} (parse : String → Except String α)
    (resp : Except String String) : AIResult α :=
  match resp with
  | .error e => .err e
  | .ok text =>
      match extractSpan '[' ']' text.toList with
      | none => .err "Could not parse flashcards"
      | some span =>
          match parse (String.mk span) with
          | .error e => .err e
          | .ok v => .ok v

/-- Embeds `generate_quiz` (src/ai_service.py:337): same control flow as
`generate_flashcards` with a braces span and the quiz parse message. -/
def generate_quiz {α : Type} (parse : String → Except String α)
    (resp : Except String String) : AIResult α :=
  match resp with
  | .error e => .err e
  | .ok text =>
      match extractSpan lbrace rbrace text.toList with
      | none => .err "Could not parse quiz"
      | some span =>
          match parse (String.mk span) with
          | .error e => .err e
          | .ok v => .ok v

/-- The result dict assembled by `process_material`
(src/ai_service.py:378). -/
structure ProcessResult (α : Type) where
  success : Bool
  content_preview : String
  compendium : Option String
  flashcards : Option α
  error : Option String
deriving DecidableEq, Repr

/-- Embeds `process_material` (src/ai_service.py:374), as a function of the
extraction and provider outcomes.  `isImage` selects the vision branch
(which leaves `content` empty); `content` is the text extracted by
`get_file_content`; `compRes` is the outcome of `create_compendium` /
`create_compendium_from_image`; `fcRes` is the outcome of
`generate_flashcards` on the same content.  Flashcards are only attempted
for the goals understand / exam / review and only when text content exists,
and a flashcard failure leaves the already-recorded compendium success
untouched. -/
def process_material {α : Type} (isImage : Bool) (content : String)
    (compRes : AIResult String) (fcRes : AIResult α) (goal : String) :
    ProcessResult α :=
  let base : ProcessResult α :=
    { success := false, content_preview := "", compendium := none
      flashcards := none, error := none }
  let contentEff := if isImage then "" else content
  if ¬ isImage ∧ content = "" then
    { base with error := some "Could not extract content from file" }
  else
    let preview :=
      if isImage then ""
      else if content.length > 500 then content.take 500 ++ "..."
      else content
    let base := { base with content_preview := preview }
    match compRes with
    | .ok comp =>
        let r := { base with success := true, compendium := some comp }
        if goal ∈ (["understand", "exam", "review"] : List String) ∧ contentEff ≠ "" then
          match fcRes with
          | .ok cards => { r with flashcards := some cards }
          | .err _ => r
        else r
    | .err e => { base with error := some e }

/-- A stored daily row whose goal was met (counters as they happen to be;
only the flag matters to the streak queries). -/
def metRow : DailyProgress := { DailyProgress.init with study_time := 60, goal_met := true }

/-- Concrete state: a user on a 5-day streak, daily goal 60, yesterday
(day 9) goal met, nothing recorded for today (day 10). -/
def dbStreak5 : Db :=
  { user := { streak := 5, total_study_time := 300 }
    settings := some { daily_goal := 60 }
    progress := [(9, metRow)]
    notifications := [] }

/-- Concrete state: a user on a 364-day streak whose goal is met both
yesterday (day 9) and today (day 10). -/
def dbStreak364 : Db :=
  { user := { streak := 364, total_study_time := 300 }
    settings := some { daily_goal := 60 }
    progress := [(9, metRow), (10, metRow)]
    notifications := [] }

/-- Concrete state: a user with 100 accumulated minutes and no settings or
progress rows. -/
def dbPlain : Db :=
  { user := { streak := 0, total_study_time := 100 }
    settings := none
    progress := []
    notifications := [] }

/-- Concrete notification store: one unread and one read notification of
user 1 and one unread notification of user 2. -/
def notifs0 : List Notification :=
  [ { user_id := 1, type := "reminder", title := "a", text := "", icon := "", read := false }
  , { user_id := 1, type := "success", title := "b", text := "", icon := "", read := true }
  , { user_id := 2, type := "warning", title := "c", text := "", icon := "", read := false } ]

theorem getRow_setRow (d e : Int) (p : DailyProgress) (rows : List (Int × DailyProgress)) :
    getRow e (setRow d p rows) = if d = e then some p else getRow e rows := by
  induction rows with
  | nil =>
      by_cases h : d = e <;> simp [getRow, setRow, h]
  | cons hd tl ih =>
      obtain ⟨d', p'⟩ := hd
      by_cases h1 : d' = d
      · subst h1
        by_cases h2 : d' = e <;> simp [getRow, setRow, h2]
      · by_cases h2 : d' = e
        · subst h2
          have h3 : ¬ d = d' := fun h => h1 h.symm
          simp [getRow, setRow, h1, h3]
        · simp [getRow, setRow, h1, h2, ih]

theorem update_streak_svc_progress (uid : Nat) (today : Int) (db : Db) :
    (ProgressService.update_streak uid today db).progress = db.progress := by
  unfold ProgressService.update_streak
  dsimp only
  split <;> split <;> rfl

theorem update_streak_svc_tst (uid : Nat) (today : Int) (db : Db) :
    (ProgressService.update_streak uid today db).user.total_study_time
      = db.user.total_study_time := by
  unfold ProgressService.update_streak
  dsimp only
  split <;> split <;> rfl

theorem update_streak_svc_settings (uid : Nat) (today : Int) (db : Db) :
    (ProgressService.update_streak uid today db).settings = db.settings := by
  unfold ProgressService.update_streak
  dsimp only
  split <;> split <;> rfl

theorem update_streak_app_progress (uid : Nat) (today : Int) (db : Db) :
    (app.update_streak uid today db).progress = db.progress := by
  unfold app.update_streak
  dsimp only
  split
  · split
    · split <;> split <;> rfl
    · rfl
  · rfl

theorem update_streak_app_tst (uid : Nat) (today : Int) (db : Db) :
    (app.update_streak uid today db).user.total_study_time
      = db.user.total_study_time := by
  unfold app.update_streak
  dsimp only
  split
  · split
    · split <;> split <;> rfl
    · rfl
  · rfl


theorem update_daily_svc_spec (uid : Nat) (today st mp tc pr : Int) (db : Db) :
    ∃ g : Bool,
      (ProgressService.update_daily uid today st mp tc pr db).progress
        = setRow today
            { study_time := (rowAt today db).study_time + st
              materials_processed := (rowAt today db).materials_processed + mp
              tasks_completed := (rowAt today db).tasks_completed + tc
              pages_read := (rowAt today db).pages_read + pr
              goal_met := g } db.progress
      ∧ ((rowAt today db).goal_met = true → g = true)
      ∧ (ProgressService.update_daily uid today st mp tc pr db).user.total_study_time
          = db.user.total_study_time := by
  unfold ProgressService.update_daily
  dsimp only
  split
  · split
    · split
      · refine ⟨true, ?_, fun _ => rfl, ?_⟩
        · rw [update_streak_svc_progress]; rfl
        · rw [update_streak_svc_tst]
      · exact ⟨(rowAt today db).goal_met, rfl, fun h => h, rfl⟩
    · exact ⟨(rowAt today db).goal_met, rfl, fun h => h, rfl⟩
  · exact ⟨(rowAt today db).goal_met, rfl, fun h => h, rfl⟩

theorem update_daily_app_spec (uid : Nat) (today st mp tc pr : Int) (db : Db) :
    ∃ g : Bool,
      (app.update_daily_progress uid today st mp tc pr db).progress
        = setRow today
            { study_time := (rowAt today db).study_time + st
              materials_processed := (rowAt today db).materials_processed + mp
              tasks_completed := (rowAt today db).tasks_completed + tc
              pages_read := (rowAt today db).pages_read + pr
              goal_met := g } db.progress
      ∧ ((rowAt today db).goal_met = true → g = true)
      ∧ (app.update_daily_progress uid today st mp tc pr db).user.total_study_time
          = db.user.total_study_time := by
  unfold app.update_daily_progress
  dsimp only
  split
  · split
    · exact ⟨true, rfl, fun _ => rfl, rfl⟩
    · exact ⟨(rowAt today db).goal_met, rfl, fun h => h, rfl⟩
  · exact ⟨(rowAt today db).goal_met, rfl, fun h => h, rfl⟩

theorem applyDailyCall_counters (uid : Nat) (today : Int) (c : DailyCall) (db : Db) :
    (rowAt today (applyDailyCall uid today c db)).study_time
        = (rowAt today db).study_time + c.st ∧
    (rowAt today (applyDailyCall uid today c db)).materials_processed
        = (rowAt today db).materials_processed + c.mp ∧
    (rowAt today (applyDailyCall uid today c db)).tasks_completed
        = (rowAt today db).tasks_completed + c.tc ∧
    (rowAt today (applyDailyCall uid today c db)).pages_read
        = (rowAt today db).pages_read + c.pr := by
  cases c with
  | svc st mp tc pr =>
      obtain ⟨g, hp, -, -⟩ := update_daily_svc_spec uid today st mp tc pr db
      refine ⟨?_, ?_, ?_, ?_⟩ <;>
        simp [applyDailyCall, rowAt, hp, getRow_setRow, DailyCall.st, DailyCall.mp,
          DailyCall.tc, DailyCall.pr]
  | app st mp tc pr =>
      obtain ⟨g, hp, -, -⟩ := update_daily_app_spec uid today st mp tc pr db
      refine ⟨?_, ?_, ?_, ?_⟩ <;>
        simp [applyDailyCall, rowAt, hp, getRow_setRow, DailyCall.st, DailyCall.mp,
          DailyCall.tc, DailyCall.pr]

theorem goalMet_streak_svc (uid : Nat) (t d : Int) (db : Db) :
    goalMetAt d (ProgressService.update_streak uid t db) = goalMetAt d db := by
  simp [goalMetAt, rowAt, update_streak_svc_progress]

theorem goalMet_streak_app (uid : Nat) (t d : Int) (db : Db) :
    goalMetAt d (app.update_streak uid t db) = goalMetAt d db := by
  simp [goalMetAt, rowAt, update_streak_app_progress]

theorem goalMet_daily_svc_sticky (uid : Nat) (today st mp tc pr d : Int) (db : Db)
    (h : goalMetAt d db = true) :
    goalMetAt d (ProgressService.update_daily uid today st mp tc pr db) = true := by
  obtain ⟨g, hp, hg, -⟩ := update_daily_svc_spec uid today st mp tc pr db
  by_cases hd : today = d
  · subst hd
    have hgt : g = true := hg h
    simp [goalMetAt, rowAt, hp, getRow_setRow, hgt]
  · simp only [goalMetAt, rowAt, hp, getRow_setRow, if_neg hd]
    exact h

theorem goalMet_daily_app_sticky (uid : Nat) (today st mp tc pr d : Int) (db : Db)
    (h : goalMetAt d db = true) :
    goalMetAt d (app.update_daily_progress uid today st mp tc pr db) = true := by
  obtain ⟨g, hp, hg, -⟩ := update_daily_app_spec uid today st mp tc pr db
  by_cases hd : today = d
  · subst hd
    have hgt : g = true := hg h
    simp [goalMetAt, rowAt, hp, getRow_setRow, hgt]
  · simp only [goalMetAt, rowAt, hp, getRow_setRow, if_neg hd]
    exact h

theorem applyOp_sticky (uid : Nat) (op : ProgOp) (d : Int) (db : Db)
    (h : goalMetAt d db = true) :
    goalMetAt d (applyOp uid op db) = true := by
  cases op with
  | svcDaily t st mp tc pr => exact goalMet_daily_svc_sticky uid t st mp tc pr d db h
  | appDaily t st mp tc pr => exact goalMet_daily_app_sticky uid t st mp tc pr d db h
  | svcStreak t => rw [applyOp, goalMet_streak_svc]; exact h
  | appStreak t => rw [applyOp, goalMet_streak_app]; exact h
  | svcSession t du pg =>
      exact goalMet_daily_svc_sticky uid t du 0 0 pg d _ h
  | appSession t du pg =>
      rw [applyOp, app.end_session_db, goalMet_streak_app]
      exact goalMet_daily_app_sticky uid t du 0 0 pg d _ h

theorem applyOps_sticky (uid : Nat) (ops : List ProgOp) (d : Int) (db : Db)
    (h : goalMetAt d db = true) :
    goalMetAt d (applyOps uid ops db) = true := by
  induction ops generalizing db with
  | nil => exact h
  | cons op rest ih => exact ih (applyOp uid op db) (applyOp_sticky uid op d db h)

theorem goalTrace_shape (uid : Nat) (d : Int) (db : Db) (ops : List ProgOp) :
    ∃ t, goalTrace uid d db ops = goalMetAt d db :: t := by
  cases ops with
  | nil => exact ⟨[], rfl⟩
  | cons op rest => exact ⟨goalTrace uid d (applyOp uid op db) rest, rfl⟩

theorem countFlips_goalTrace_of_true (uid : Nat) (d : Int) (ops : List ProgOp) (db : Db)
    (h : goalMetAt d db = true) :
    countFlips (goalTrace uid d db ops) = 0 := by
  induction ops generalizing db with
  | nil => simp [goalTrace, countFlips]
  | cons op rest ih =>
      obtain ⟨t, ht⟩ := goalTrace_shape uid d (applyOp uid op db) rest
      have h' : goalMetAt d (applyOp uid op db) = true := applyOp_sticky uid op d db h
      rw [goalTrace, ht, countFlips, h, h']
      rw [h'] at ht
      rw [← ht, ih _ h']
      simp

theorem countFlips_goalTrace_le_one (uid : Nat) (d : Int) (ops : List ProgOp) (db : Db) :
    countFlips (goalTrace uid d db ops) ≤ 1 := by
  induction ops generalizing db with
  | nil => simp [goalTrace, countFlips]
  | cons op rest ih =>
      by_cases h : goalMetAt d db = true
      · rw [countFlips_goalTrace_of_true uid d (op :: rest) db h]
        omega
      · obtain ⟨t, ht⟩ := goalTrace_shape uid d (applyOp uid op db) rest
        have hb : goalMetAt d db = false := by
          cases hx : goalMetAt d db
          · rfl
          · exact absurd hx h
        rw [goalTrace, ht, countFlips, hb]
        by_cases h2 : goalMetAt d (applyOp uid op db) = true
        · rw [h2]
          rw [h2] at ht
          rw [← ht, countFlips_goalTrace_of_true uid d rest _ h2]
          simp
        · have hb2 : goalMetAt d (applyOp uid op db) = false := by
            cases hx : goalMetAt d (applyOp uid op db)
            · rfl
            · exact absurd hx h2
          rw [hb2]
          rw [hb2] at ht
          rw [← ht]
          simpa using ih (applyOp uid op db)

theorem applyDailyCalls_additive (uid : Nat) (today : Int) (cs : List DailyCall) (db : Db) :
    (rowAt today (applyDailyCalls uid today cs db)).study_time
        = (rowAt today db).study_time + sumSt cs ∧
    (rowAt today (applyDailyCalls uid today cs db)).materials_processed
        = (rowAt today db).materials_processed + sumMp cs ∧
    (rowAt today (applyDailyCalls uid today cs db)).tasks_completed
        = (rowAt today db).tasks_completed + sumTc cs ∧
    (rowAt today (applyDailyCalls uid today cs db)).pages_read
        = (rowAt today db).pages_read + sumPr cs := by
  induction cs generalizing db with
  | nil => simp [applyDailyCalls, sumSt, sumMp, sumTc, sumPr, List.foldl]
  | cons c cs ih =>
      obtain ⟨h1, h2, h3, h4⟩ := applyDailyCall_counters uid today c db
      obtain ⟨i1, i2, i3, i4⟩ := ih (applyDailyCall uid today c db)
      have e : applyDailyCalls uid today (c :: cs) db
          = applyDailyCalls uid today cs (applyDailyCall uid today c db) := rfl
      rw [e]
      refine ⟨?_, ?_, ?_, ?_⟩
      · rw [i1, h1, sumSt]; omega
      · rw [i2, h2, sumMp]; omega
      · rw [i3, h3, sumTc]; omega
      · rw [i4, h4, sumPr]; omega

theorem MonoLe.refl' (db : Db) : MonoLe db db :=
  ⟨le_refl _, fun _ => ⟨le_refl _, le_refl _, le_refl _, le_refl _⟩⟩

theorem MonoLe.trans' {a b c : Db} (h1 : MonoLe a b) (h2 : MonoLe b c) : MonoLe a c := by
  obtain ⟨t1, r1⟩ := h1
  obtain ⟨t2, r2⟩ := h2
  refine ⟨le_trans t1 t2, fun d => ?_⟩
  obtain ⟨a1, a2, a3, a4⟩ := r1 d
  obtain ⟨b1, b2, b3, b4⟩ := r2 d
  exact ⟨le_trans a1 b1, le_trans a2 b2, le_trans a3 b3, le_trans a4 b4⟩

theorem daily_svc_mono (uid : Nat) (today st mp tc pr : Int) (db : Db)
    (h : 0 ≤ st ∧ 0 ≤ mp ∧ 0 ≤ tc ∧ 0 ≤ pr) :
    MonoLe db (ProgressService.update_daily uid today st mp tc pr db) := by
  obtain ⟨hst, hmp, htc, hpr⟩ := h
  obtain ⟨g, hp, -, ht⟩ := update_daily_svc_spec uid today st mp tc pr db
  refine ⟨le_of_eq ht.symm, fun d => ?_⟩
  by_cases hd : today = d
  · subst hd
    refine ⟨?_, ?_, ?_, ?_⟩ <;> simp [rowAt, hp, getRow_setRow] <;> omega
  · refine ⟨?_, ?_, ?_, ?_⟩ <;> simp [rowAt, hp, getRow_setRow, hd]

theorem daily_app_mono (uid : Nat) (today st mp tc pr : Int) (db : Db)
    (h : 0 ≤ st ∧ 0 ≤ mp ∧ 0 ≤ tc ∧ 0 ≤ pr) :
    MonoLe db (app.update_daily_progress uid today st mp tc pr db) := by
  obtain ⟨hst, hmp, htc, hpr⟩ := h
  obtain ⟨g, hp, -, ht⟩ := update_daily_app_spec uid today st mp tc pr db
  refine ⟨le_of_eq ht.symm, fun d => ?_⟩
  by_cases hd : today = d
  · subst hd
    refine ⟨?_, ?_, ?_, ?_⟩ <;> simp [rowAt, hp, getRow_setRow] <;> omega
  · refine ⟨?_, ?_, ?_, ?_⟩ <;> simp [rowAt, hp, getRow_setRow, hd]

theorem streak_svc_mono (uid : Nat) (t : Int) (db : Db) :
    MonoLe db (ProgressService.update_streak uid t db) := by
  refine ⟨le_of_eq (update_streak_svc_tst uid t db).symm, fun d => ?_⟩
  refine ⟨?_, ?_, ?_, ?_⟩ <;> simp [rowAt, update_streak_svc_progress]

theorem streak_app_mono (uid : Nat) (t : Int) (db : Db) :
    MonoLe db (app.update_streak uid t db) := by
  refine ⟨le_of_eq (update_streak_app_tst uid t db).symm, fun d => ?_⟩
  refine ⟨?_, ?_, ?_, ?_⟩ <;> simp [rowAt, update_streak_app_progress]

theorem bump_tst_mono (du : Int) (hdu : 0 ≤ du) (db : Db) :
    MonoLe db { db with user :=
      { db.user with total_study_time := db.user.total_study_time + du } } := by
  refine ⟨?_, fun d => ?_⟩
  · show db.user.total_study_time ≤ db.user.total_study_time + du
    omega
  · exact ⟨le_refl _, le_refl _, le_refl _, le_refl _⟩

theorem applyOp_mono (uid : Nat) (op : ProgOp) (db : Db) (h : NonnegOp op) :
    MonoLe db (applyOp uid op db) := by
  cases op with
  | svcDaily t st mp tc pr => exact daily_svc_mono uid t st mp tc pr db h
  | appDaily t st mp tc pr => exact daily_app_mono uid t st mp tc pr db h
  | svcStreak t => exact streak_svc_mono uid t db
  | appStreak t => exact streak_app_mono uid t db
  | svcSession t du pg =>
      obtain ⟨hdu, hpg⟩ := h
      exact MonoLe.trans' (bump_tst_mono du hdu db)
        (daily_svc_mono uid t du 0 0 pg _ ⟨hdu, le_refl 0, le_refl 0, hpg⟩)
  | appSession t du pg =>
      obtain ⟨hdu, hpg⟩ := h
      exact MonoLe.trans'
        (MonoLe.trans' (bump_tst_mono du hdu db)
          (daily_app_mono uid t du 0 0 pg _ ⟨hdu, le_refl 0, le_refl 0, hpg⟩))
        (streak_app_mono uid t _)

theorem applyOps_mono (uid : Nat) (ops : List ProgOp) (db : Db)
    (h : ∀ op ∈ ops, NonnegOp op) :
    MonoLe db (applyOps uid ops db) := by
  induction ops generalizing db with
  | nil => exact MonoLe.refl' db
  | cons op rest ih =>
      exact MonoLe.trans' (applyOp_mono uid op db (h op (by simp)))
        (ih (applyOp uid op db) (fun o ho => h o (by simp [ho])))

/-- C2: whenever the streak transition runs, the streak becomes its
previous value plus one when yesterday's row exists with `goal_met` true,
and is reset to exactly 1 (never 0) otherwise; the app-layer copy obeys the
same rule whenever it runs with today's row present and its goal met. -/
theorem C2_streak_transition_rule (uid : Nat) (today : Int) (db : Db) :
    (yesterdayMet today db = true →
      (ProgressService.update_streak uid today db).user.streak = db.user.streak + 1) ∧
    (yesterdayMet today db = false →
      (ProgressService.update_streak uid today db).user.streak = 1) ∧
    (∀ p, getRow today db.progress = some p → p.goal_met = true →
      (yesterdayMet today db = true →
        (app.update_streak uid today db).user.streak = db.user.streak + 1) ∧
      (yesterdayMet today db = false →
        (app.update_streak uid today db).user.streak = 1)) := by
  refine ⟨?_, ?_, ?_⟩
  · intro h
    simp [ProgressService.update_streak, h]
    split <;> rfl
  · intro h
    simp [ProgressService.update_streak, h]
  · intro p hp hm
    constructor
    · intro h
      simp [app.update_streak, hp, hm, h]
      split <;> rfl
    · intro h
      simp [app.update_streak, hp, hm, h]

/-- Witness for C2: at the concrete state `dbStreak5` (yesterday met,
streak 5) the service transition yields streak 6. -/
theorem C2_witness :
    (ProgressService.update_streak 0 10 dbStreak5).user.streak
      = dbStreak5.user.streak + 1 :=
  (C2_streak_transition_rule 0 10 dbStreak5).1 (by decide)

/-- C3: along any sequence of the repository's progress operations, a
day's `goal_met` flag never reverts from true to false (sticky), and its
trajectory flips false-to-true at most once. -/
theorem C3_goal_met_sticky_once (uid : Nat) (d : Int) (ops : List ProgOp) (db : Db) :
    (goalMetAt d db = true → goalMetAt d (applyOps uid ops db) = true) ∧
    countFlips (goalTrace uid d db ops) ≤ 1 :=
  ⟨applyOps_sticky uid ops d db, countFlips_goalTrace_le_one uid d ops db⟩

/-- Witness for C3: concrete run from a state with today's goal already
met. -/
theorem C3_witness :
    goalMetAt 10 (applyOps 0 [ProgOp.appDaily 10 0 0 1 0] dbStreak364) = true ∧
    countFlips (goalTrace 0 10 dbStreak364 [ProgOp.appDaily 10 0 0 1 0]) ≤ 1 :=
  ⟨(C3_goal_met_sticky_once 0 10 [ProgOp.appDaily 10 0 0 1 0] dbStreak364).1 (by decide),
   (C3_goal_met_sticky_once 0 10 [ProgOp.appDaily 10 0 0 1 0] dbStreak364).2⟩

/-- C5: over any sequence of daily-progress update calls (service-layer or
app-layer, mixed) on the same user and date, each of the four counters ends
at its initial value plus the sum of the corresponding deltas supplied. -/
theorem C5_counters_additive (uid : Nat) (today : Int) (cs : List DailyCall) (db : Db) :
    (rowAt today (applyDailyCalls uid today cs db)).study_time
        = (rowAt today db).study_time + sumSt cs ∧
    (rowAt today (applyDailyCalls uid today cs db)).materials_processed
        = (rowAt today db).materials_processed + sumMp cs ∧
    (rowAt today (applyDailyCalls uid today cs db)).tasks_completed
        = (rowAt today db).tasks_completed + sumTc cs ∧
    (rowAt today (applyDailyCalls uid today cs db)).pages_read
        = (rowAt today db).pages_read + sumPr cs :=
  applyDailyCalls_additive uid today cs db

/-- C7: toggling an incomplete task marks it completed, stamps
`completed_at = now` and adds exactly one to today's `tasks_completed`;
toggling a completed task back clears `completed_at` and leaves the
database — in particular the `tasks_completed` counter — entirely
untouched (no compensating decrement). -/
theorem C7_toggle_task_asymmetric (uid : Nat) (now today : Int) (t : TaskRow) (db : Db) :
    (t.completed = false →
      (app.toggle_task uid now today t db).1.completed = true ∧
      (app.toggle_task uid now today t db).1.completed_at = some now ∧
      (rowAt today (app.toggle_task uid now today t db).2).tasks_completed
        = (rowAt today db).tasks_completed + 1) ∧
    (t.completed = true →
      (app.toggle_task uid now today t db).1.completed = false ∧
      (app.toggle_task uid now today t db).1.completed_at = none ∧
      (app.toggle_task uid now today t db).2 = db) := by
  constructor
  · intro h
    have h2 := (applyDailyCall_counters uid today (.app 0 0 1 0) db).2.2.1
    refine ⟨?_, ?_, ?_⟩
    · simp [app.toggle_task, h]
    · simp [app.toggle_task, h]
    · simp only [app.toggle_task, h]
      simpa [applyDailyCall, DailyCall.tc] using h2
  · intro h
    refine ⟨?_, ?_, ?_⟩ <;> simp [app.toggle_task, h]

/-- Witness for C7: toggling a concrete incomplete task. -/
theorem C7_witness :
    (app.toggle_task 0 99 10 { completed := false, completed_at := none } dbPlain).1.completed = true ∧
    (app.toggle_task 0 99 10 { completed := false, completed_at := none } dbPlain).1.completed_at = some 99 ∧
    (rowAt 10 (app.toggle_task 0 99 10 { completed := false, completed_at := none } dbPlain).2).tasks_completed
      = (rowAt 10 dbPlain).tasks_completed + 1 :=
  (C7_toggle_task_asymmetric 0 99 10 { completed := false, completed_at := none } dbPlain).1 rfl

/-- C10: `mark_all_read` is idempotent: one call leaves every notification
owned by the user read, and an immediate second call leaves the store
exactly as after the first. -/
theorem C10_mark_all_read_idem (uid : Nat) (ns : List Notification) :
    (∀ n ∈ NotificationService.mark_all_read uid ns, n.user_id = uid → n.read = true) ∧
    NotificationService.mark_all_read uid (NotificationService.mark_all_read uid ns)
      = NotificationService.mark_all_read uid ns := by
  constructor
  · intro n hn hu
    rw [NotificationService.mark_all_read, List.mem_map] at hn
    obtain ⟨m, hm, hEq⟩ := hn
    subst hEq
    by_cases h : m.user_id = uid ∧ m.read = false
    · simp [h]
    · simp only [if_neg h] at hu ⊢
      cases hr : m.read
      · exact absurd ⟨hu, hr⟩ h
      · rfl
  · simp only [NotificationService.mark_all_read, List.map_map]
    apply List.map_congr_left
    intro m hm
    by_cases h : m.user_id = uid ∧ m.read = false
    · simp [Function.comp, h]
    · simp [Function.comp, h]

/-- Witness for C10: idempotence at the concrete store `notifs0`. -/
theorem C10_witness :
    NotificationService.mark_all_read 1 (NotificationService.mark_all_read 1 notifs0)
      = NotificationService.mark_all_read 1 notifs0 :=
  (C10_mark_all_read_idem 1 notifs0).2

/-- C6 counterexample: the claim asserts `total_study_time` is
non-decreasing under every operation including arbitrary `duration` values
passed to the session-end handler; a negative duration refutes it (the
handler performs no validation and adds the raw value). -/
theorem C6_counterexample :
    ¬ ∀ (duration pages_covered : Int) (db : Db),
        db.user.total_study_time
          ≤ (app.end_session_db 0 10 duration pages_covered db).user.total_study_time := by
  intro h
  exact absurd (h (-10) 0 dbPlain) (by decide)

/-- C6 (amended): under every operation whose supplied deltas (durations,
pages, counter increments) are non-negative, `total_study_time` is
non-decreasing and no daily counter of any date is ever decremented. -/
theorem C6_amended_monotone (uid : Nat) (ops : List ProgOp) (db : Db)
    (h : ∀ op ∈ ops, NonnegOp op) :
    MonoLe db (applyOps uid ops db) :=
  applyOps_mono uid ops db h

/-- Witness for the amended C6 at a concrete run: one app-layer session end
with non-negative duration and pages. -/
theorem C6_witness :
    MonoLe dbPlain (applyOps 0 [ProgOp.appSession 10 45 3] dbPlain) :=
  C6_amended_monotone 0 [ProgOp.appSession 10 45 3] dbPlain (by
    intro op hop
    simp only [List.mem_singleton] at hop
    subst hop
    exact ⟨by decide, by decide⟩)

/-- C8: for flashcard and quiz generation, a provider success whose text
admits no extractable span yields the fixed parse-failure result, and an
extracted span rejected by the JSON decoder yields a failure carrying the
decoder's message; a provider failure yields a failure carrying the
provider's message instead.  All failures are returned as structured
results (the functions are total), never raised. -/
theorem C8_parse_failure_structured {α : Type} (parse : String → Except String α)
    (text : String) :
    (extractSpan '[' ']' text.toList = none →
      generate_flashcards parse (Except.ok text) = AIResult.err "Could not parse flashcards") ∧
    (∀ s m, extractSpan '[' ']' text.toList = some s →
      parse (String.mk s) = Except.error m →
      generate_flashcards parse (Except.ok text) = AIResult.err m) ∧
    (extractSpan lbrace rbrace text.toList = none →
      generate_quiz parse (Except.ok text) = AIResult.err "Could not parse quiz") ∧
    (∀ s m, extractSpan lbrace rbrace text.toList = some s →
      parse (String.mk s) = Except.error m →
      generate_quiz parse (Except.ok text) = AIResult.err m) ∧
    (∀ e, generate_flashcards parse (Except.error e) = AIResult.err e) ∧
    (∀ e, generate_quiz parse (Except.error e) = AIResult.err e) := by
  refine ⟨?_, ?_, ?_, ?_, fun e => rfl, fun e => rfl⟩
  · intro h
    have h' : extractSpan '[' ']' text.data = none := h
    simp [generate_flashcards, h']
  · intro s m hs hm
    have hs' : extractSpan '[' ']' text.data = some s := hs
    simp [generate_flashcards, hs', hm]
  · intro h
    have h' : extractSpan lbrace rbrace text.data = none := h
    simp [generate_quiz, h']
  · intro s m hs hm
    have hs' : extractSpan lbrace rbrace text.data = some s := hs
    simp [generate_quiz, hs', hm]

/-- Witness for C8: a model response with no bracket span produces the
fixed flashcard parse-failure result. -/
theorem C8_witness :
    generate_flashcards (fun _ : String => (Except.error "bad json" : Except String Unit))
      (Except.ok "hello") = AIResult.err "Could not parse flashcards" :=
  (C8_parse_failure_structured (fun _ : String => (Except.error "bad json" : Except String Unit))
    "hello").1 (by decide)

/-- C9: when the compendium succeeds but flashcard generation fails (for
any reason), `process_material` still reports overall success with the
compendium present and the flashcards field left null; the operation does
not fail. -/
theorem C9_partial_failure {α : Type} (isImage : Bool) (content comp msg goal : String)
    (h : isImage = true ∨ content ≠ "") :
    (process_material isImage content (AIResult.ok comp)
        (AIResult.err msg : AIResult α) goal).success = true ∧
    (process_material isImage content (AIResult.ok comp)
        (AIResult.err msg : AIResult α) goal).compendium = some comp ∧
    (process_material isImage content (AIResult.ok comp)
        (AIResult.err msg : AIResult α) goal).flashcards = none := by
  unfold process_material
  have hcond : ¬ (¬ isImage = true ∧ content = "") := by
    rcases h with h | h
    · simp [h]
    · simp [h]
  rw [if_neg hcond]
  dsimp only
  refine ⟨?_, ?_, ?_⟩ <;> (split <;> split <;> rfl)

/-- Witness for C9: concrete text material, successful compendium, failing
flashcards. -/
theorem C9_witness :
    (process_material false "abc" (AIResult.ok "comp")
        (AIResult.err "bad" : AIResult Unit) "understand").success = true ∧
    (process_material false "abc" (AIResult.ok "comp")
        (AIResult.err "bad" : AIResult Unit) "understand").compendium = some "comp" ∧
    (process_material false "abc" (AIResult.ok "comp")
        (AIResult.err "bad" : AIResult Unit) "understand").flashcards = none :=
  C9_partial_failure false "abc" "comp" "bad" "understand" (Or.inr (by decide))

/-- C1: the claim requires the streak transition to run exactly once, at
the moment `goal_met` flips.  Evaluated at a concrete failing input: from
`dbStreak5` (streak 5, daily goal 60, yesterday met), one qualifying
session end takes the streak to 6, but a second qualifying session end on
the same day re-runs the transition in the app-layer handler and takes it
to 7; the edge-triggered service layer leaves it at 6 after the same two
calls. -/
theorem C1_second_session_end_retriggers_streak :
    (app.end_session_db 0 10 60 0 dbStreak5).user.streak = 6 ∧
    (app.end_session_db 0 10 60 0 (app.end_session_db 0 10 60 0 dbStreak5)).user.streak = 7 ∧
    (SessionService.end_session_db 0 10 60 0 dbStreak5).user.streak = 6 ∧
    (SessionService.end_session_db 0 10 60 0
        (SessionService.end_session_db 0 10 60 0 dbStreak5)).user.streak = 6 := by
  refine ⟨?_, ?_, ?_, ?_⟩ <;> decide

/-- C4: the claim asserts one achievement notification exactly on the
milestone set containing 365.  Evaluated at the failing input
`dbStreak364`: the app-layer transition takes the streak to 365 and emits
nothing (its milestone list stops at 100), while the service-layer
transition emits exactly one achievement notification at 365. -/
theorem C4_app_milestone_365_missing :
    (app.update_streak 0 10 dbStreak364).user.streak = 365 ∧
    (app.update_streak 0 10 dbStreak364).notifications = [] ∧
    (ProgressService.update_streak 0 10 dbStreak364).user.streak = 365 ∧
    (ProgressService.update_streak 0 10 dbStreak364).notifications.length = 1 ∧
    (ProgressService.update_streak 0 10 dbStreak364).notifications.map Notification.type
      = ["achievement"] := by
  refine ⟨?_, ?_, ?_, ?_, ?_⟩ <;> decide
